import Mathlib

/-
Shallow embedding of the core of mq-atmos-station (src/main.py, Bellator
V18.2). Python floats are modelled as exact rationals; the upstream
weather code is an integer. The embedded parts are the pieces the
verification needs: the severity classification of the exposure index
(EEI_v31.calcular, step 6), the effective-velocity / laminar-floor guard
(step 1 and 2), the precipitation-phase block of generate_ui_card
(src/main.py lines 259-309), the forecast classifier get_precip_type
(lines 371-384), the weather-code labelling (lines 211-220), the
freezing-level validation of the main loop (lines 548-558) and the
altitude adjustment (lines 564-568).
-/

namespace MQAtmos

/-- A weather sample, mirroring the dictionaries built by get_data in the
main loop (src/main.py lines 527-537): temperature, wind, precipitation
rate, humidity, weather code, irradiance, snowfall rate and reported
freezing-level height. -/
structure Sample where
  temp : ℚ
  wind : ℚ
  rain : ℚ
  hum : ℚ
  code : ℤ
  irradiance : ℚ
  snowfall : ℚ
  freezing_level : ℚ
deriving DecidableEq, Repr

namespace EEI_v31

/-- Coefficient of vectorial incidence (src/main.py line 44). -/
def MU : ℚ := 0.6

/-- Mean rider speed on mixed terrain, km/h (line 45). -/
def V_RIDER : ℚ := 16

/-- Laminar-flow threshold, km/h (line 46). -/
def V_EFF_MIN : ℚ := 4.8

/-- Effective velocity, step 1 of EEI_v31.calcular (line 117):
v_eff = v_meteo * MU + V_RIDER. -/
def v_eff (v_meteo : ℚ) : ℚ := v_meteo * MU + V_RIDER

/-- The guard of the laminar branch of step 2 of EEI_v31.calcular
(line 120): the convective term collapses to T_wc = T_a exactly when
v_eff < V_EFF_MIN. -/
def usesLaminarFloor (v_meteo : ℚ) : Bool := decide (v_eff v_meteo < V_EFF_MIN)

/-- Step 6 of EEI_v31.calcular (lines 145-154): severity level and colour
from the composite EEI value. -/
def estado (eei : ℚ) : String × String :=
  if eei > 15 then ("SAFE", "#2ecc71")
  else if eei > 10 then ("CAUTION", "#f1c40f")
  else if eei > 5 then ("WARNING", "#e67e22")
  else if eei > 0 then ("DANGER", "#e74c3c")
  else ("CRITICAL", "#8b0000")

/-- Severity label alone. -/
def nivel (eei : ℚ) : String := (estado eei).1

end EEI_v31

/-- Weather-code to display text (get_weather_text, src/main.py
lines 211-220), first match wins. -/
def get_weather_text (code : ℤ) : String :=
  if code = 0 then "CLEAR"
  else if 1 ≤ code ∧ code ≤ 3 then "CLOUDY"
  else if code = 45 ∨ code = 48 then "FOG"
  else if 51 ≤ code ∧ code ≤ 67 then "RAIN"
  else if code = 71 ∨ code = 73 ∨ code = 75 ∨ code = 77 ∨ code = 85 ∨ code = 86 then "SNOW"
  else if 80 ≤ code ∧ code ≤ 82 then "STORM"
  else if 95 ≤ code ∧ code ≤ 99 then "THUNDER"
  else "OVCAST"

/-- Forecast phase classifier get_precip_type (src/main.py lines 371-384):
grey zone first, then cold-confirmed snow, then altitude versus freezing
level, else the cosmetic weather-code text. -/
def get_precip_type (d : Sample) (alt : ℚ) : String :=
  if 0 < d.temp ∧ d.temp ≤ 3 ∧ d.rain > 0.1 then
    if d.temp ≤ 1.5 then "SNOW?" else "MIXED"
  else if d.temp ≤ 1 ∧ d.rain > 0.1 then "SNOW"
  else if alt > d.freezing_level ∧ d.freezing_level < 9000 ∧ d.rain > 0.1 then "SNOW"
  else get_weather_text d.code

/-- Which branch of the first-match classifier chain fires, following the
guards of get_precip_type (src/main.py lines 371-384) in order. -/
inductive PRule where
  | mixedZone
  | coldSnow
  | altSnow
  | fallback
deriving DecidableEq, Repr

/-- The rule of get_precip_type that fires for a sample at a given
altitude. -/
def firedRule (d : Sample) (alt : ℚ) : PRule :=
  if 0 < d.temp ∧ d.temp ≤ 3 ∧ d.rain > 0.1 then .mixedZone
  else if d.temp ≤ 1 ∧ d.rain > 0.1 then .coldSnow
  else if alt > d.freezing_level ∧ d.freezing_level < 9000 ∧ d.rain > 0.1 then .altSnow
  else .fallback

/-- The intensity-tier block that appears verbatim at src/main.py
lines 277-283 and again at lines 288-294: HEAVY above 10 mm/h, MODERATE
above 3 mm/h, else LIGHT. -/
def snowTier (rain : ℚ) : String :=
  if rain > 10 then "HEAVY" else if rain > 3 then "MODERATE" else "LIGHT"

/-- Result of the snow-physics block of generate_ui_card (src/main.py
lines 259-309): the flags, intensity, status, colour and the
watermark_base variable, which Python leaves unassigned (none) on the
branches that set neither flag. -/
structure NowPhaseResult where
  is_snow : Bool
  snow_intensity : String
  is_mixed : Bool
  status : String
  color : String
  watermark : Option String
deriving DecidableEq, Repr

/-- The snow-physics block of generate_ui_card (src/main.py
lines 259-309), operating on the now-sample. status0 and color0 are the
severity level and colour that EEI_v31.calcular produced for the
now-sample (lines 252-253); the block starts from is_snow = False,
snow_intensity = LIGHT, is_mixed = False, runs the grey-zone /
cold-snow / altitude chain, then overrides status and colour when
is_snow was set. -/
def nowPhase (alt : ℚ) (d : Sample) (status0 color0 : String) : NowPhaseResult :=
  let base : NowPhaseResult :=
    { is_snow := false, snow_intensity := "LIGHT", is_mixed := false,
      status := status0, color := color0, watermark := none }
  let r :=
    if 0 < d.temp ∧ d.temp ≤ 3 ∧ d.rain > 0.1 then
      if d.temp ≤ 1.5 then
        { base with is_mixed := true, status := "LIKELY SNOW",
                    color := "#3498db", watermark := some "SNOW PROBABLE" }
      else
        { base with is_mixed := true, status := "MIXED PRECIP",
                    color := "#e67e22", watermark := some "RAIN/SNOW MIX" }
    else if d.rain > 0.1 ∧ d.temp ≤ 1 then
      { base with is_snow := true, snow_intensity := snowTier d.rain }
    else if alt > d.freezing_level ∧ d.freezing_level < 9000 then
      if d.rain > 0.1 then
        { base with is_snow := true, snow_intensity := snowTier d.rain }
      else base
    else base
  if r.is_snow then
    if r.snow_intensity = "LIGHT" then
      { r with status := "SNOW ALERT", color := "#f1c40f", watermark := some "❄" }
    else if r.snow_intensity = "MODERATE" then
      { r with status := "SNOW WARNING", color := "#e67e22", watermark := some "SNOW" }
    else
      { r with status := "BLIZZARD", color := "#e74c3c", watermark := some "BLIZZARD" }
  else r

/-- Expected freezing level from the environmental lapse rate
(src/main.py line 549): sector altitude plus temperature over 0.0065. -/
def expected_fl (alt temp : ℚ) : ℚ := alt + temp / 0.0065

/-- The per-sample freezing-level correction of the main loop
(src/main.py lines 548-558), as applied to the now-sample: skipped when
the temperature is zero, replaces the reported value by the expected one
when they differ by more than 500 m, keeps it otherwise. -/
def validateFL (alt temp fl : ℚ) : ℚ :=
  if temp ≠ 0 then
    if |fl - expected_fl alt temp| > 500 then expected_fl alt temp else fl
  else fl

/-- The whole freezing-level validation block of the main loop
(src/main.py lines 548-558): the expected level is computed from the
now-sample, and when the correction triggers the same expected value is
written into the freezing_level of all three samples. -/
def validateTriple (alt : ℚ) (dnow d3 d6 : Sample) : Sample × Sample × Sample :=
  if dnow.temp ≠ 0 then
    if |dnow.freezing_level - expected_fl alt dnow.temp| > 500 then
      ({ dnow with freezing_level := expected_fl alt dnow.temp },
       { d3 with freezing_level := expected_fl alt dnow.temp },
       { d6 with freezing_level := expected_fl alt dnow.temp })
    else (dnow, d3, d6)
  else (dnow, d3, d6)

/-- The altitude adjustment of the main loop (src/main.py lines 564-568):
for sectors above 1000 m the wind is multiplied by 1.60 and the
temperature reduced by 2. -/
def adjustAltitude (alt : ℚ) (d : Sample) : Sample :=
  if alt > 1000 then { d with wind := d.wind * 1.60, temp := d.temp - 2 } else d

/-- The samples as they reach generate_ui_card, after the main loop ran
the freezing-level validation (lines 548-558) and then the altitude
adjustment (lines 564-568): only the now-sample is adjusted. -/
def pipelineSamples (alt : ℚ) (dnow d3 d6 : Sample) : Sample × Sample × Sample :=
  let v := validateTriple alt dnow d3 d6
  (adjustAltitude alt v.1, v.2.1, v.2.2)

/-- Sample for the C1 witness: 2.5 degrees with 1 mm/h of rain. -/
def sMixed : Sample :=
  { temp := 2.5, wind := 10, rain := 1, hum := 80, code := 61,
    irradiance := 0, snowfall := 0, freezing_level := 2500 }

/-- The sample of the spec scenario behind C2: 2 degrees, 0.2 mm/h,
corrected freezing level 1200 m, evaluated at the 1415 m waypoint. -/
def sScenario : Sample :=
  { temp := 2, wind := 10, rain := 0.2, hum := 80, code := 61,
    irradiance := 0, snowfall := 0, freezing_level := 1200 }

/-- Sample for the C3 counterexample: its freezing level is within 500 m
of the expected one at 1415 m, so the validation leaves it alone. -/
def sPipe : Sample :=
  { temp := 5, wind := 10, rain := 0.2, hum := 80, code := 61,
    irradiance := 0, snowfall := 0, freezing_level := 2184 }

/-- Sample for the C4 witness: grey-zone conditions with weather code 0. -/
def sCode : Sample :=
  { temp := 0.5, wind := 10, rain := 1, hum := 80, code := 0,
    irradiance := 0, snowfall := 0, freezing_level := 2000 }

/-- Sample for the C5 counterexample: grey-zone temperature with heavy
20 mm/h precipitation. -/
def sMixedHeavy : Sample :=
  { temp := 2, wind := 10, rain := 20, hum := 80, code := 61,
    irradiance := 0, snowfall := 0, freezing_level := 9999 }

/-- Sample for the C5 witness: cold-confirmed snow at 5 mm/h. -/
def sColdSnow : Sample :=
  { temp := -2, wind := 10, rain := 5, hum := 80, code := 71,
    irradiance := 0, snowfall := 0, freezing_level := 9999 }

/-- Sample for the C10 witness: the reported 9999 m sentinel is far from
the 2000 m expected level, so a correction triggers. -/
def sFL : Sample :=
  { temp := 6.5, wind := 10, rain := 0, hum := 80, code := 0,
    irradiance := 0, snowfall := 0, freezing_level := 9999 }

/-- C1: the mixed-zone rule dominates. For every sample with
0 < T_a <= 3 and R > 0.1 the first rule of the classifier fires: the
forecast classifier returns the probable-snow label when T_a <= 1.5 and
MIXED above, the now-sample block sets is_mixed (never is_snow) with the
matching status and watermark, and no later rule is consulted. -/
theorem mixed_zone_rule_dominates (alt : ℚ) (d : Sample) (s c : String)
    (h1 : 0 < d.temp) (h2 : d.temp ≤ 3) (h3 : d.rain > 0.1) :
    firedRule d alt = PRule.mixedZone ∧
    get_precip_type d alt = (if d.temp ≤ 1.5 then "SNOW?" else "MIXED") ∧
    (nowPhase alt d s c).is_mixed = true ∧
    (nowPhase alt d s c).is_snow = false ∧
    (nowPhase alt d s c).status =
      (if d.temp ≤ 1.5 then "LIKELY SNOW" else "MIXED PRECIP") ∧
    (nowPhase alt d s c).watermark =
      (if d.temp ≤ 1.5 then some "SNOW PROBABLE" else some "RAIN/SNOW MIX") := by
  have hcond : 0 < d.temp ∧ d.temp ≤ 3 ∧ d.rain > 0.1 := ⟨h1, h2, h3⟩
  unfold firedRule get_precip_type nowPhase
  simp only [if_pos hcond]
  by_cases h15 : d.temp ≤ 1.5 <;> simp [h15]

theorem mixed_zone_rule_dominates_witness :
    firedRule sMixed 65 = PRule.mixedZone ∧
    get_precip_type sMixed 65 = (if sMixed.temp ≤ 1.5 then "SNOW?" else "MIXED") ∧
    (nowPhase 65 sMixed "DANGER" "#e74c3c").is_mixed = true ∧
    (nowPhase 65 sMixed "DANGER" "#e74c3c").is_snow = false ∧
    (nowPhase 65 sMixed "DANGER" "#e74c3c").status =
      (if sMixed.temp ≤ 1.5 then "LIKELY SNOW" else "MIXED PRECIP") ∧
    (nowPhase 65 sMixed "DANGER" "#e74c3c").watermark =
      (if sMixed.temp ≤ 1.5 then some "SNOW PROBABLE" else some "RAIN/SNOW MIX") :=
  mixed_zone_rule_dominates 65 sMixed "DANGER" "#e74c3c"
    (by norm_num [sMixed]) (by norm_num [sMixed]) (by norm_num [sMixed])

/-- C2 counterexample: on the spec scenario (T_a = 2, R = 0.2 mm/h,
altitude 1415 m, corrected freezing level 1200 m) the classifier does
not return SNOW and the altitude rule does not fire, contrary to the
claim: T_a = 2 lies inside the mixed band (0, 3]. -/
theorem altitude_scenario_counterexample :
    sScenario.temp = 2 ∧ sScenario.rain = 0.2 ∧
    sScenario.freezing_level = 1200 ∧
    get_precip_type sScenario 1415 ≠ "SNOW" ∧
    firedRule sScenario 1415 ≠ PRule.altSnow := by
  refine ⟨rfl, rfl, rfl, ?_, ?_⟩
  · have h : get_precip_type sScenario 1415 = "MIXED" := by
      norm_num [get_precip_type, sScenario]
    rw [h]; decide
  · have h : firedRule sScenario 1415 = PRule.mixedZone := by
      norm_num [firedRule, sScenario]
    rw [h]; decide

/-- C2 amended: for a sample with T_a = 2, R = 0.2 mm/h, waypoint
altitude 1415 m and corrected freezing level 1200 m, the classifier
returns MIXED via the first (mixed-zone) rule, because T_a = 2 lies in
the mixed band 0 < T_a <= 3; the altitude-vs-freezing-level rule is
never consulted. -/
theorem altitude_scenario_amended :
    get_precip_type sScenario 1415 = "MIXED" ∧
    firedRule sScenario 1415 = PRule.mixedZone ∧
    (nowPhase 1415 sScenario "DANGER" "#e74c3c").status = "MIXED PRECIP" ∧
    (nowPhase 1415 sScenario "DANGER" "#e74c3c").is_mixed = true := by
  norm_num [get_precip_type, firedRule, nowPhase, sScenario]

/-- C4: noninterference of the distrusted upstream fields. Changing only
the weather-code and snowfall fields of a sample changes nothing in the
now-sample snow block, nothing in which classifier rule fires, and
nothing in the forecast label as long as any precipitation rule fired;
the weather code reaches the output only through the cosmetic fall-back
label. -/
theorem weathercode_noninterference (alt : ℚ) (d : Sample) (s c : String)
    (co : ℤ) (sn : ℚ) :
    nowPhase alt { d with code := co, snowfall := sn } s c = nowPhase alt d s c ∧
    firedRule { d with code := co, snowfall := sn } alt = firedRule d alt ∧
    (firedRule d alt ≠ PRule.fallback →
      get_precip_type { d with code := co, snowfall := sn } alt =
        get_precip_type d alt) := by
  obtain ⟨t, w, r, h, co0, i, sn0, f⟩ := d
  refine ⟨rfl, rfl, fun hfb => ?_⟩
  unfold get_precip_type
  unfold firedRule at hfb
  split_ifs at hfb ⊢ <;> simp_all

theorem weathercode_noninterference_witness :
    nowPhase 65 { sCode with code := 71, snowfall := 5 } "DANGER" "#e74c3c" =
      nowPhase 65 sCode "DANGER" "#e74c3c" ∧
    firedRule { sCode with code := 71, snowfall := 5 } 65 = firedRule sCode 65 ∧
    get_precip_type { sCode with code := 71, snowfall := 5 } 65 =
      get_precip_type sCode 65 :=
  ⟨(weathercode_noninterference 65 sCode "DANGER" "#e74c3c" 71 5).1,
   (weathercode_noninterference 65 sCode "DANGER" "#e74c3c" 71 5).2.1,
   (weathercode_noninterference 65 sCode "DANGER" "#e74c3c" 71 5).2.2 (by
     have h : firedRule sCode 65 = PRule.mixedZone := by
       norm_num [firedRule, sCode]
     rw [h]; decide)⟩

/-- C5 counterexample: a grey-zone sample with R = 20 mm/h gets a MIXED
verdict whose intensity stays LIGHT, not HEAVY as the claim requires:
the tiering block runs only in the two is_snow branches, never in the
mixed-zone branch. -/
theorem intensity_tiering_counterexample :
    (nowPhase 65 sMixedHeavy "DANGER" "#e74c3c").is_mixed = true ∧
    sMixedHeavy.rain > 10 ∧
    (nowPhase 65 sMixedHeavy "DANGER" "#e74c3c").snow_intensity ≠ "HEAVY" := by
  refine ⟨by norm_num [nowPhase, sMixedHeavy], by norm_num [sMixedHeavy], ?_⟩
  have h : (nowPhase 65 sMixedHeavy "DANGER" "#e74c3c").snow_intensity =
      "LIGHT" := by norm_num [nowPhase, sMixedHeavy]
  rw [h]; decide

/-- C5 amended: the intensity tiering (HEAVY above 10 mm/h, MODERATE
above 3 mm/h, else LIGHT) applies exactly to the SNOW verdicts of the
cold-confirmed and altitude rules — whenever is_snow is set the
intensity equals snowTier of the precipitation rate, whichever of the
two rules fired — while mixed-zone verdicts (MIXED or probable snow)
always keep the initial LIGHT intensity regardless of the rate. -/
theorem snow_intensity_tiering (alt : ℚ) (d : Sample) (s c : String) :
    ((nowPhase alt d s c).is_snow = true →
      (nowPhase alt d s c).snow_intensity = snowTier d.rain) ∧
    ((nowPhase alt d s c).is_mixed = true →
      (nowPhase alt d s c).snow_intensity = "LIGHT") := by
  unfold nowPhase
  dsimp only
  split_ifs <;>
    constructor <;> intro hx <;>
    first
      | rfl
      | simp_all

theorem snow_intensity_tiering_witness :
    (nowPhase 65 sColdSnow "DANGER" "#e74c3c").snow_intensity =
      snowTier sColdSnow.rain :=
  (snow_intensity_tiering 65 sColdSnow "DANGER" "#e74c3c").1 (by
    norm_num [nowPhase, sColdSnow, snowTier]
    decide)

/-- C3 counterexample: at the 1415 m waypoint the +3h sample that
reaches the classifier is not the altitude-adjusted one — its wind is
still 10 km/h where the adjustment would give 16 km/h, and its
temperature is unreduced — so the adjustment is not applied to each of
the three samples. -/
theorem altitude_adjustment_counterexample :
    (1000 : ℚ) < 1415 ∧
    (pipelineSamples 1415 sPipe sPipe sPipe).2.1.wind = 10 ∧
    (pipelineSamples 1415 sPipe sPipe sPipe).2.1.temp = 5 ∧
    (adjustAltitude 1415 sPipe).wind = 16 ∧
    (pipelineSamples 1415 sPipe sPipe sPipe).2.1 ≠ adjustAltitude 1415 sPipe := by
  have hv : validateTriple 1415 sPipe sPipe sPipe = (sPipe, sPipe, sPipe) := by
    unfold validateTriple
    rw [if_pos (by norm_num [sPipe]),
      if_neg (by norm_num [expected_fl, sPipe, abs_le])]
  refine ⟨by norm_num, ?_, ?_, by norm_num [adjustAltitude, sPipe], ?_⟩ <;>
    simp only [pipelineSamples, hv]
  · norm_num [sPipe]
  · norm_num [sPipe]
  · intro hc
    have := congrArg Sample.wind hc
    norm_num [adjustAltitude, sPipe] at this

/-- C3 amended: for waypoints above 1000 m the altitude adjustment (wind
times 1.60, temperature minus 2) is applied exactly once and only to the
now-sample, after the freezing-level validation and before the card
generation that feeds both the exposure model and the phase classifier;
the +3h and +6h samples are consumed with their wind and temperature
unadjusted. -/
theorem altitude_adjustment_now_only (alt : ℚ) (dnow d3 d6 : Sample)
    (h : 1000 < alt) :
    (pipelineSamples alt dnow d3 d6).1 =
      adjustAltitude alt (validateTriple alt dnow d3 d6).1 ∧
    (pipelineSamples alt dnow d3 d6).1.wind =
      (validateTriple alt dnow d3 d6).1.wind * 1.60 ∧
    (pipelineSamples alt dnow d3 d6).1.temp =
      (validateTriple alt dnow d3 d6).1.temp - 2 ∧
    (pipelineSamples alt dnow d3 d6).2.1 = (validateTriple alt dnow d3 d6).2.1 ∧
    (pipelineSamples alt dnow d3 d6).2.2 = (validateTriple alt dnow d3 d6).2.2 ∧
    (pipelineSamples alt dnow d3 d6).2.1.wind = d3.wind ∧
    (pipelineSamples alt dnow d3 d6).2.1.temp = d3.temp ∧
    (pipelineSamples alt dnow d3 d6).2.2.wind = d6.wind ∧
    (pipelineSamples alt dnow d3 d6).2.2.temp = d6.temp := by
  refine ⟨rfl, ?_, ?_, rfl, rfl, ?_, ?_, ?_, ?_⟩ <;>
    simp only [pipelineSamples, adjustAltitude, validateTriple] <;>
    split_ifs <;> simp_all

theorem altitude_adjustment_now_only_witness :
    (pipelineSamples 1415 sPipe sPipe sPipe).1 =
      adjustAltitude 1415 (validateTriple 1415 sPipe sPipe sPipe).1 ∧
    (pipelineSamples 1415 sPipe sPipe sPipe).1.wind =
      (validateTriple 1415 sPipe sPipe sPipe).1.wind * 1.60 ∧
    (pipelineSamples 1415 sPipe sPipe sPipe).1.temp =
      (validateTriple 1415 sPipe sPipe sPipe).1.temp - 2 ∧
    (pipelineSamples 1415 sPipe sPipe sPipe).2.1 =
      (validateTriple 1415 sPipe sPipe sPipe).2.1 ∧
    (pipelineSamples 1415 sPipe sPipe sPipe).2.2 =
      (validateTriple 1415 sPipe sPipe sPipe).2.2 ∧
    (pipelineSamples 1415 sPipe sPipe sPipe).2.1.wind = sPipe.wind ∧
    (pipelineSamples 1415 sPipe sPipe sPipe).2.1.temp = sPipe.temp ∧
    (pipelineSamples 1415 sPipe sPipe sPipe).2.2.wind = sPipe.wind ∧
    (pipelineSamples 1415 sPipe sPipe sPipe).2.2.temp = sPipe.temp :=
  altitude_adjustment_now_only 1415 sPipe sPipe sPipe (by norm_num)

/-- C10: the freezing-level validation is driven solely by the
now-sample. Each output freezing level is the expected level computed
from the now-sample temperature exactly when that sample triggered a
correction, and the respective reported level otherwise; the +3h and
+6h temperatures never influence their corrected freezing levels. -/
theorem freezing_level_now_sample_driven (alt : ℚ) (dnow d3 d6 : Sample) :
    ((validateTriple alt dnow d3 d6).1.freezing_level =
      if dnow.temp ≠ 0 ∧ |dnow.freezing_level - expected_fl alt dnow.temp| > 500
      then expected_fl alt dnow.temp else dnow.freezing_level) ∧
    ((validateTriple alt dnow d3 d6).2.1.freezing_level =
      if dnow.temp ≠ 0 ∧ |dnow.freezing_level - expected_fl alt dnow.temp| > 500
      then expected_fl alt dnow.temp else d3.freezing_level) ∧
    ((validateTriple alt dnow d3 d6).2.2.freezing_level =
      if dnow.temp ≠ 0 ∧ |dnow.freezing_level - expected_fl alt dnow.temp| > 500
      then expected_fl alt dnow.temp else d6.freezing_level) ∧
    (∀ t3 t6 : ℚ,
      (validateTriple alt dnow { d3 with temp := t3 }
          { d6 with temp := t6 }).2.1.freezing_level =
        (validateTriple alt dnow d3 d6).2.1.freezing_level ∧
      (validateTriple alt dnow { d3 with temp := t3 }
          { d6 with temp := t6 }).2.2.freezing_level =
        (validateTriple alt dnow d3 d6).2.2.freezing_level) := by
  unfold validateTriple
  refine ⟨?_, ?_, ?_, fun t3 t6 => ⟨?_, ?_⟩⟩ <;> split_ifs <;> simp_all

theorem freezing_level_now_sample_driven_witness :
    ((validateTriple 1000 sFL sFL sFL).1.freezing_level =
      if sFL.temp ≠ 0 ∧ |sFL.freezing_level - expected_fl 1000 sFL.temp| > 500
      then expected_fl 1000 sFL.temp else sFL.freezing_level) ∧
    ((validateTriple 1000 sFL sFL sFL).2.1.freezing_level =
      if sFL.temp ≠ 0 ∧ |sFL.freezing_level - expected_fl 1000 sFL.temp| > 500
      then expected_fl 1000 sFL.temp else sFL.freezing_level) ∧
    ((validateTriple 1000 sFL sFL sFL).2.2.freezing_level =
      if sFL.temp ≠ 0 ∧ |sFL.freezing_level - expected_fl 1000 sFL.temp| > 500
      then expected_fl 1000 sFL.temp else sFL.freezing_level) :=
  ⟨(freezing_level_now_sample_driven 1000 sFL sFL sFL).1,
   (freezing_level_now_sample_driven 1000 sFL sFL sFL).2.1,
   (freezing_level_now_sample_driven 1000 sFL sFL sFL).2.2.1⟩

/-- C6: Freezing-Level Validator contract. With the expected level
FL_expected = A + T_a / 0.0065, a zero temperature passes the reported
freezing level through unchanged; a reported value more than 500 m away
from the expected one is replaced by the expected one; otherwise the
reported value is kept. The validator is a total function, so it returns
a value on every input and never raises. -/
theorem freezing_level_validator_contract (alt temp fl : ℚ) :
    (temp = 0 → validateFL alt temp fl = fl) ∧
    (temp ≠ 0 → |fl - expected_fl alt temp| > 500 →
      validateFL alt temp fl = expected_fl alt temp) ∧
    (temp ≠ 0 → |fl - expected_fl alt temp| ≤ 500 →
      validateFL alt temp fl = fl) := by
  unfold validateFL
  refine ⟨fun h => by simp [h], fun h hgt => by simp [h, hgt], fun h hle => ?_⟩
  rw [if_pos h, if_neg (by linarith)]

theorem freezing_level_validator_contract_witness :
    validateFL 1000 0 3000 = 3000 ∧
    validateFL 1000 6.5 3000 = expected_fl 1000 6.5 ∧
    validateFL 1000 6.5 2000 = 2000 :=
  ⟨(freezing_level_validator_contract 1000 0 3000).1 rfl,
   (freezing_level_validator_contract 1000 6.5 3000).2.1 (by norm_num)
     (by norm_num [expected_fl]),
   (freezing_level_validator_contract 1000 6.5 2000).2.2 (by norm_num)
     (by norm_num [expected_fl])⟩

/-- C7: the freezing-level correction is idempotent. Whenever the
reported level is within 500 m of the expected one — in particular on
any output of a previous run of the validator with the same altitude and
temperature — the validator keeps it unchanged; re-running the validator
on its own output never changes the result. -/
theorem freezing_level_correction_idempotent (alt temp fl : ℚ)
    (h : |fl - expected_fl alt temp| ≤ 500) :
    validateFL alt temp fl = fl ∧
    validateFL alt temp (validateFL alt temp fl) = validateFL alt temp fl := by
  have hkeep : validateFL alt temp fl = fl := by
    unfold validateFL
    split_ifs with h1 h2
    · linarith
    · rfl
    · rfl
  exact ⟨hkeep, by rw [hkeep, hkeep]⟩

theorem freezing_level_correction_idempotent_witness :
    validateFL 1000 6.5 2000 = 2000 ∧
    validateFL 1000 6.5 (validateFL 1000 6.5 2000) = validateFL 1000 6.5 2000 :=
  freezing_level_correction_idempotent 1000 6.5 2000 (by norm_num [expected_fl])

/-- C8: the severity classification of EEI_v31.calcular is a total,
exhaustive, non-overlapping partition: SAFE exactly above 15, CAUTION
exactly on (10, 15], WARNING exactly on (5, 10], DANGER exactly on
(0, 5], CRITICAL exactly at or below 0; ties at 15, 10, 5, 0 fall into
the lower band. -/
theorem severity_partition (eei : ℚ) :
    (EEI_v31.nivel eei = "SAFE" ↔ 15 < eei) ∧
    (EEI_v31.nivel eei = "CAUTION" ↔ 10 < eei ∧ eei ≤ 15) ∧
    (EEI_v31.nivel eei = "WARNING" ↔ 5 < eei ∧ eei ≤ 10) ∧
    (EEI_v31.nivel eei = "DANGER" ↔ 0 < eei ∧ eei ≤ 5) ∧
    (EEI_v31.nivel eei = "CRITICAL" ↔ eei ≤ 0) := by
  unfold EEI_v31.nivel EEI_v31.estado
  split_ifs with h1 h2 h3 h4 <;>
    refine ⟨?_, ?_, ?_, ?_, ?_⟩ <;> simp <;>
    first
      | linarith
      | (constructor <;> linarith)
      | (intro h; linarith)

theorem severity_partition_witness :
    EEI_v31.nivel 12 = "CAUTION" ∧ EEI_v31.nivel 15 = "CAUTION" :=
  ⟨(severity_partition 12).2.1.mpr (by norm_num),
   (severity_partition 15).2.1.mpr (by norm_num)⟩

/-- C9: the laminar-flow branch of the convective term is dead code for
physical inputs. For every non-negative wind speed the effective
velocity 0.6 * v + 16 is at least 16 km/h, so the guard
v_eff < 4.8 of the T_wc = T_a branch never fires; it fires exactly when
the wind speed is below -56/3 km/h. -/
theorem laminar_branch_unreachable (v : ℚ) :
    (0 ≤ v → 16 ≤ EEI_v31.v_eff v ∧ EEI_v31.usesLaminarFloor v = false) ∧
    (EEI_v31.usesLaminarFloor v = true ↔ v < -56 / 3) := by
  unfold EEI_v31.usesLaminarFloor EEI_v31.v_eff EEI_v31.MU EEI_v31.V_RIDER
    EEI_v31.V_EFF_MIN
  constructor
  · intro h
    constructor
    · nlinarith
    · simp only [decide_eq_false_iff_not, not_lt]
      nlinarith
  · simp only [decide_eq_true_eq]
    constructor <;> intro h <;> nlinarith

theorem laminar_branch_unreachable_witness :
    16 ≤ EEI_v31.v_eff 20 ∧ EEI_v31.usesLaminarFloor 20 = false :=
  (laminar_branch_unreachable 20).1 (by norm_num)

end MQAtmos
